import Mathlib

/-!
Verification development for the hand-tracking input pipeline
(feature extraction, gating, binding evaluation, smoothing).

Shallow embedding of the Python sources:
  src/input/tracker.py    (MultiLandmark arithmetic)
  src/input/HandState.py  (HandState, landmark indices)
  src/input/features.py   (Feature classes, FeatureIndex)
  src/gate/gate.py        (Gate, GateBuilder)
  src/binding/binding.py  (EventBinding, DeltaBinding, AbsBinding, BindingBuilder, BindingIndex)
  src/outputs/actuators.py (Actuator classes, ActuatorBuilder)
  src/input/smoothing.py  (HandSmoother)

Modelling conventions:
  - Python floats are modelled as rationals; float constants such as np.pi
    are modelled by their decimal value as an exact rational.
  - Irrational-valued geometry helpers from src/input/geometry.py and the
    external cv2 homography (math.hypot, arccos, arcsin, atan2, and the
    perspective transform) are modelled as parameters collected in a Geom
    structure; every theorem below holds for all such parameters.
  - Mutable object state is passed explicitly: a Python method that mutates
    self and returns a value becomes a Lean function returning the value
    paired with the updated structure.
  - Actuator side effects are modelled as returned emission values.
  - Clock reads, int(time.time() * 1000) and time.time(), are modelled as
    explicit now parameters.
-/

/-- MultiLandmark from src/input/tracker.py: normalized coordinates (x, y, z),
world coordinates (wx, wy, wz) and the frame shape. Screen coordinates are
derived as sx = x * frameW, sy = y * frameH exactly as recomputed from
normalized coordinates in the MultiLandmark constructor. The visibility and
presence fields are carried along unchanged by every operation used here and
are omitted. -/
structure MultiLandmark where
  x : ℚ
  y : ℚ
  z : ℚ
  wx : ℚ
  wy : ℚ
  wz : ℚ
  frameW : ℚ
  frameH : ℚ
deriving DecidableEq

/-- Screen x coordinate: sx = lm.x * frame_shape[1]. -/
def MultiLandmark.sx (p : MultiLandmark) : ℚ := p.x * p.frameW

/-- Screen y coordinate: sy = lm.y * frame_shape[0]. -/
def MultiLandmark.sy (p : MultiLandmark) : ℚ := p.y * p.frameH

/-- MultiLandmark.__add__ with a MultiLandmark argument: componentwise sum of
normalized and world coordinates, keeping the frame shape of the left operand. -/
def MultiLandmark.add (p q : MultiLandmark) : MultiLandmark :=
  { x := p.x + q.x, y := p.y + q.y, z := p.z + q.z,
    wx := p.wx + q.wx, wy := p.wy + q.wy, wz := p.wz + q.wz,
    frameW := p.frameW, frameH := p.frameH }

/-- MultiLandmark.__sub__ with a MultiLandmark argument. -/
def MultiLandmark.sub (p q : MultiLandmark) : MultiLandmark :=
  { x := p.x - q.x, y := p.y - q.y, z := p.z - q.z,
    wx := p.wx - q.wx, wy := p.wy - q.wy, wz := p.wz - q.wz,
    frameW := p.frameW, frameH := p.frameH }

/-- MultiLandmark.__mul__ with a scalar. -/
def MultiLandmark.smul (p : MultiLandmark) (v : ℚ) : MultiLandmark :=
  { x := p.x * v, y := p.y * v, z := p.z * v,
    wx := p.wx * v, wy := p.wy * v, wz := p.wz * v,
    frameW := p.frameW, frameH := p.frameH }

/-- MultiLandmark.__truediv__ with a scalar. -/
def MultiLandmark.sdiv (p : MultiLandmark) (v : ℚ) : MultiLandmark :=
  { x := p.x / v, y := p.y / v, z := p.z / v,
    wx := p.wx / v, wy := p.wy / v, wz := p.wz / v,
    frameW := p.frameW, frameH := p.frameH }

instance : Add MultiLandmark := ⟨MultiLandmark.add⟩
instance : Sub MultiLandmark := ⟨MultiLandmark.sub⟩

/-- Zero landmark, used as the out-of-range default for list indexing (the
Python lists always have 22 entries, so the default is never reached in the
modelled scenarios). -/
def defaultLM : MultiLandmark := ⟨0, 0, 0, 0, 0, 0, 0, 0⟩

/-- HandState from src/input/HandState.py. -/
structure HandState where
  label : String
  landmarks : List MultiLandmark
  palm_width : ℚ
deriving DecidableEq

namespace HandState
def WRIST : ℕ := 0
def THUMB_CMC : ℕ := 1
def THUMB_MCP : ℕ := 2
def THUMB_IP : ℕ := 3
def THUMB_TIP : ℕ := 4
def INDEX_FINGER_MCP : ℕ := 5
def INDEX_FINGER_PIP : ℕ := 6
def INDEX_FINGER_DIP : ℕ := 7
def INDEX_FINGER_TIP : ℕ := 8
def MIDDLE_FINGER_MCP : ℕ := 9
def MIDDLE_FINGER_PIP : ℕ := 10
def MIDDLE_FINGER_DIP : ℕ := 11
def MIDDLE_FINGER_TIP : ℕ := 12
def RING_FINGER_MCP : ℕ := 13
def RING_FINGER_PIP : ℕ := 14
def RING_FINGER_DIP : ℕ := 15
def RING_FINGER_TIP : ℕ := 16
def PINKY_MCP : ℕ := 17
def PINKY_PIP : ℕ := 18
def PINKY_DIP : ℕ := 19
def PINKY_TIP : ℕ := 20
def PALM_CENTER : ℕ := 21
end HandState

/-- Rational standing for the float value of np.pi. -/
def npPi : ℚ := 3.141592653589793

/-- Feature.normalize_value from src/input/features.py: linear normalization,
0 at min, 1 at max, not clamped; 0 when the range is degenerate. The min_v and
max_v arguments stand for getattr(self, min, 0.0) and getattr(self, max, 1.0). -/
def normalize_value (min_v max_v raw : ℚ) : ℚ :=
  let rng := max_v - min_v
  if |rng| < 1 / 1000000 then 0 else (raw - min_v) / rng

/-- Hand selection idiom shared by every Feature.getValue implementation:
hand = left_hand if self.hand == (the string left) else right_hand. -/
def selectHand (sel : String) (l r : Option HandState) : Option HandState :=
  if sel = "left" then l else r

/-- Matrix produced by cv2.getPerspectiveTransform, row major. -/
structure Mat3 where
  a : ℚ
  b : ℚ
  c : ℚ
  d : ℚ
  e : ℚ
  f : ℚ
  g : ℚ
  h : ℚ
  i : ℚ
deriving DecidableEq

/-- Geometry oracle: the irrational-valued helpers of src/input/geometry.py,
src/input/features.py and cv2, abstracted as parameters. curv3d stands for
finger_curvature_3d (total, always returns a float), bendAngle for
finger_bend_plane_angle (total), hypot3 for math.hypot on three arguments,
rotationRaw for the body of RotationFeature.getValue after the hand check
(returning none on the degenerate-norm branches), rollRaw likewise for
RollRotationFeature.getValue, homography for cv2.getPerspectiveTransform. -/
structure Geom where
  curv3d : List MultiLandmark → List ℕ → ℚ
  bendAngle : HandState → ℕ → ℕ → ℚ
  hypot3 : ℚ → ℚ → ℚ → ℚ
  rotationRaw : HandState → ℕ → ℕ → ℕ → Option ℚ
  rollRaw : HandState → Option ℚ
  homography : List (ℚ × ℚ) → Mat3

/-- PositionFeature from src/input/features.py. The H field is the homography
computed at construction time from the calibration quad; min and max are never
set by this class, so normalize_value is applied with the getattr defaults
0.0 and 1.0. -/
structure PositionFeature where
  hand : String
  axis : String
  quad : List (ℚ × ℚ)
  H : Mat3
  last_value : Option ℚ
  last_raw_value : Option ℚ
deriving DecidableEq

/-- PositionFeature.getValue. -/
def PositionFeature.getValue (f : PositionFeature) (l r : Option HandState) :
    Option ℚ × PositionFeature :=
  match selectHand f.hand l r with
  | none => (none, { f with last_value := none, last_raw_value := none })
  | some h =>
    let pc := h.landmarks.getD HandState.PALM_CENTER defaultLM
    let w0 := f.H.a * pc.x + f.H.b * pc.y + f.H.c
    let w1 := f.H.d * pc.x + f.H.e * pc.y + f.H.f
    let w2 := f.H.g * pc.x + f.H.h * pc.y + f.H.i
    if w2 = 0 then (none, { f with last_value := none, last_raw_value := none })
    else
      let u := w0 / w2
      let v := w1 / w2
      let val := if f.axis = "x" then u else v
      let nv := normalize_value 0 1 val
      (some nv, { f with last_raw_value := some val, last_value := some nv })

/-- MovementFeature from src/input/features.py. min is set to 0 and max to
range_norm at construction. -/
structure MovementFeature where
  hand : String
  axis : String
  axis_vec : ℚ × ℚ
  range_norm : ℚ
  prev_palm : Option MultiLandmark
  prev_hand : Option HandState
  min : ℚ
  max : ℚ
  last_value : Option ℚ
  last_raw_value : Option ℚ
deriving DecidableEq

/-- MovementFeature.getValue. The guard against repeated calls compares the
incoming hand against prev_hand with the dataclass equality of HandState. -/
def MovementFeature.getValue (f : MovementFeature) (l r : Option HandState) :
    Option ℚ × MovementFeature :=
  match selectHand f.hand l r with
  | some h =>
    if f.prev_hand = some h then (f.last_value, f)
    else
      let f1 := { f with prev_hand := some h }
      let pc := h.landmarks.getD HandState.PALM_CENTER defaultLM
      match f1.prev_palm with
      | none =>
        (some 0, { f1 with prev_palm := some pc, last_value := some 0, last_raw_value := some 0 })
      | some pp =>
        let d := pc - pp
        let f2 := { f1 with prev_palm := some pc }
        let val := d.sx * f.axis_vec.1 + d.sy * f.axis_vec.2
        let out := normalize_value f.min f.max val
        let out2 := Max.max (-1) (Min.min 1 out)
        (some out2, { f2 with last_raw_value := some val, last_value := some out2 })
  | none =>
    (none, { f with prev_palm := none, prev_hand := none,
                    last_value := none, last_raw_value := none })

/-- CurvatureFeature from src/input/features.py. -/
structure CurvatureFeature where
  hand : String
  ids : List ℕ
  min : ℚ
  max : ℚ
  last_value : Option ℚ
  last_raw_value : Option ℚ
deriving DecidableEq

/-- CurvatureFeature.getValue. A HandState always has landmarks, so the
hasattr check is represented by the hand presence check alone. -/
def CurvatureFeature.getValue (g : Geom) (f : CurvatureFeature) (l r : Option HandState) :
    Option ℚ × CurvatureFeature :=
  match selectHand f.hand l r with
  | none => (none, { f with last_value := none })
  | some h =>
    let curv := g.curv3d h.landmarks f.ids
    let val := normalize_value f.min f.max curv
    (some val, { f with last_raw_value := some curv, last_value := some val })

/-- RelativeCurvatureFeature from src/input/features.py. -/
structure RelativeCurvatureFeature where
  hand : String
  main : CurvatureFeature
  ref1 : Option CurvatureFeature
  ref2 : Option CurvatureFeature
  min : ℚ
  max : ℚ
  last_value : Option ℚ
  last_raw_value : Option ℚ
deriving DecidableEq

/-- RelativeCurvatureFeature.getValue: recomputes finger_curvature_3d for the
main and reference finger ids directly (it does not call their getValue). -/
def RelativeCurvatureFeature.getValue (g : Geom) (f : RelativeCurvatureFeature)
    (l r : Option HandState) : Option ℚ × RelativeCurvatureFeature :=
  match selectHand f.hand l r with
  | none => (none, { f with last_value := none })
  | some h =>
    let main_val := g.curv3d h.landmarks f.main.ids
    let ref_vals : List ℚ :=
      (match f.ref1 with | some r1 => [g.curv3d h.landmarks r1.ids] | none => []) ++
      (match f.ref2 with | some r2 => [g.curv3d h.landmarks r2.ids] | none => [])
    if ref_vals = [] then (none, { f with last_value := none })
    else
      let mean_ref := ref_vals.sum / ref_vals.length
      let diff := main_val - mean_ref
      let val := normalize_value f.min f.max diff
      (some val, { f with last_raw_value := some diff, last_value := some val })

/-- BendFeature from src/input/features.py. -/
structure BendFeature where
  hand : String
  mcp_id : ℕ
  pip_id : ℕ
  min : ℚ
  max : ℚ
  last_value : Option ℚ
  last_raw_value : Option ℚ
deriving DecidableEq

/-- BendFeature.getValue. -/
def BendFeature.getValue (g : Geom) (f : BendFeature) (l r : Option HandState) :
    Option ℚ × BendFeature :=
  match selectHand f.hand l r with
  | none => (none, { f with last_value := none, last_raw_value := none })
  | some h =>
    let angle := g.bendAngle h f.mcp_id f.pip_id
    let val := normalize_value f.min f.max angle
    (some val, { f with last_raw_value := some angle, last_value := some val })

/-- RelativeBendFeature from src/input/features.py. -/
structure RelativeBendFeature where
  hand : String
  main : BendFeature
  ref1 : Option BendFeature
  ref2 : Option BendFeature
  min : ℚ
  max : ℚ
  last_value : Option ℚ
  last_raw_value : Option ℚ
deriving DecidableEq

/-- RelativeBendFeature.getValue: calls getValue on the main and reference
BendFeature objects (updating their caches) and then differences their raw
cached values. With the selected hand present, BendFeature.getValue always
stores a raw value, so summing the collected raw values is total. -/
def RelativeBendFeature.getValue (g : Geom) (f : RelativeBendFeature)
    (l r : Option HandState) : Option ℚ × RelativeBendFeature :=
  match selectHand f.hand l r with
  | none => (none, { f with last_value := none })
  | some _ =>
    let main1 := (f.main.getValue g l r).2
    let main_val := main1.last_raw_value
    let ref1a := f.ref1.map (fun b => (b.getValue g l r).2)
    let ref2a := f.ref2.map (fun b => (b.getValue g l r).2)
    let f1 := { f with main := main1, ref1 := ref1a, ref2 := ref2a }
    let ref_raws : List ℚ :=
      ((match ref1a with | some b => [b.last_raw_value] | none => []) ++
       (match ref2a with | some b => [b.last_raw_value] | none => [])).reduceOption
    if main_val = none ∨ ref_raws = [] then (none, { f1 with last_value := none })
    else
      let mean_ref := ref_raws.sum / ref_raws.length
      let diff := main_val.getD 0 - mean_ref
      let val := normalize_value f.min f.max diff
      (some val, { f1 with last_raw_value := some diff, last_value := some val })

/-- GestureFeature from src/input/features.py. -/
structure GestureFeature where
  hand : String
  kind : String
  min : ℚ
  max : ℚ
  last_value : Option ℚ
  last_raw_value : Option ℚ
deriving DecidableEq

/-- GestureFeature.getValue: the closed gesture averages the curvature of the
index, middle, ring and pinky fingers; any other kind yields none. -/
def GestureFeature.getValue (g : Geom) (f : GestureFeature) (l r : Option HandState) :
    Option ℚ × GestureFeature :=
  match selectHand f.hand l r with
  | none => (none, { f with last_value := none })
  | some h =>
    if f.kind = "closed" then
      let idx := HandState.INDEX_FINGER_MCP
      let mid := HandState.MIDDLE_FINGER_MCP
      let ring := HandState.RING_FINGER_MCP
      let pinky := HandState.PINKY_MCP
      let idx_curv := g.curv3d h.landmarks [idx, idx + 1, idx + 2, idx + 3]
      let mid_curv := g.curv3d h.landmarks [mid, mid + 1, mid + 2, mid + 3]
      let ring_curv := g.curv3d h.landmarks [ring, ring + 1, ring + 2, ring + 3]
      let pinky_curv := g.curv3d h.landmarks [pinky, pinky + 1, pinky + 2, pinky + 3]
      let avg_curv := (idx_curv + mid_curv + ring_curv + pinky_curv) / 4
      let val := normalize_value f.min f.max avg_curv
      (some val, { f with last_raw_value := some avg_curv, last_value := some val })
    else
      (none, { f with last_value := none })

/-- DistanceFeature from src/input/features.py. -/
structure DistanceFeature where
  hand : String
  id1 : ℕ
  id2 : ℕ
  min : ℚ
  max : ℚ
  last_value : Option ℚ
  last_raw_value : Option ℚ
deriving DecidableEq

/-- DistanceFeature.getValue: 3D euclidean distance of the two world-space
landmarks (the debug overlay call has no effect on the result). -/
def DistanceFeature.getValue (g : Geom) (f : DistanceFeature) (l r : Option HandState) :
    Option ℚ × DistanceFeature :=
  match selectHand f.hand l r with
  | none => (none, { f with last_value := none })
  | some h =>
    let p1 := h.landmarks.getD f.id1 defaultLM
    let p2 := h.landmarks.getD f.id2 defaultLM
    let d := p2 - p1
    let val := g.hypot3 d.wx d.wy d.wz
    let out := normalize_value f.min f.max val
    (some out, { f with last_raw_value := some val, last_value := some out })

/-- RotationFeature from src/input/features.py. -/
structure RotationFeature where
  hand : String
  ref_id : ℕ
  axis1_id : ℕ
  axis2_id : ℕ
  min : ℚ
  max : ℚ
  last_value : Option ℚ
  last_raw_value : Option ℚ
deriving DecidableEq

/-- RotationFeature.getValue: the angle computation with its degenerate-norm
branches is the rotationRaw oracle; none stands for the early returns on
near-zero axis norm. -/
def RotationFeature.getValue (g : Geom) (f : RotationFeature) (l r : Option HandState) :
    Option ℚ × RotationFeature :=
  match selectHand f.hand l r with
  | none => (none, { f with last_value := none, last_raw_value := none })
  | some h =>
    match g.rotationRaw h f.ref_id f.axis1_id f.axis2_id with
    | none => (none, { f with last_value := none, last_raw_value := none })
    | some angle =>
      let val := normalize_value f.min f.max angle
      (some val, { f with last_raw_value := some angle, last_value := some val })

/-- RollRotationFeature from src/input/features.py. -/
structure RollRotationFeature where
  hand : String
  min : ℚ
  max : ℚ
  last_value : Option ℚ
  last_raw_value : Option ℚ
deriving DecidableEq

/-- RollRotationFeature.getValue: the palm-normal roll computation, including
the per-hand sign normalization and the degenerate-norm early returns, is the
rollRaw oracle. -/
def RollRotationFeature.getValue (g : Geom) (f : RollRotationFeature) (l r : Option HandState) :
    Option ℚ × RollRotationFeature :=
  match selectHand f.hand l r with
  | none => (none, { f with last_value := none, last_raw_value := none })
  | some h =>
    match g.rollRaw h with
    | none => (none, { f with last_value := none, last_raw_value := none })
    | some angle =>
      let val := normalize_value f.min f.max angle
      (some val, { f with last_raw_value := some angle, last_value := some val })

/-- Feature: the polymorphic feature type, one constructor per class. -/
inductive Feature where
  | pos (f : PositionFeature)
  | mov (f : MovementFeature)
  | curv (f : CurvatureFeature)
  | relCurv (f : RelativeCurvatureFeature)
  | bend (f : BendFeature)
  | relBend (f : RelativeBendFeature)
  | gesture (f : GestureFeature)
  | dist (f : DistanceFeature)
  | rot (f : RotationFeature)
  | roll (f : RollRotationFeature)
deriving DecidableEq

/-- Hand-side selector of a feature (the hand attribute of the base class). -/
def Feature.handOf : Feature → String
  | .pos f => f.hand
  | .mov f => f.hand
  | .curv f => f.hand
  | .relCurv f => f.hand
  | .bend f => f.hand
  | .relBend f => f.hand
  | .gesture f => f.hand
  | .dist f => f.hand
  | .rot f => f.hand
  | .roll f => f.hand

/-- Feature.getValue dispatch. -/
def Feature.getValue (g : Geom) (ft : Feature) (l r : Option HandState) :
    Option ℚ × Feature :=
  match ft with
  | .pos f => let p := f.getValue l r; (p.1, .pos p.2)
  | .mov f => let p := f.getValue l r; (p.1, .mov p.2)
  | .curv f => let p := f.getValue g l r; (p.1, .curv p.2)
  | .relCurv f => let p := f.getValue g l r; (p.1, .relCurv p.2)
  | .bend f => let p := f.getValue g l r; (p.1, .bend p.2)
  | .relBend f => let p := f.getValue g l r; (p.1, .relBend p.2)
  | .gesture f => let p := f.getValue g l r; (p.1, .gesture p.2)
  | .dist f => let p := f.getValue g l r; (p.1, .dist p.2)
  | .rot f => let p := f.getValue g l r; (p.1, .rot p.2)
  | .roll f => let p := f.getValue g l r; (p.1, .roll p.2)

/-- Calibration entry: the per-feature-name parameter dictionary. Absent keys
are represented by none; calibration.get(key, default) becomes getD. -/
structure CalEntry where
  min : Option ℚ := none
  max : Option ℚ := none
  axis : Option (ℚ × ℚ) := none
  range_norm : Option ℚ := none
  quad : Option (List (ℚ × ℚ)) := none
deriving DecidableEq

/-- Calibration store: mapping from feature name to calibration entry. -/
abbrev Calibration := List (String × CalEntry)

/-- Dictionary access calibration.get(key, empty dict). -/
def calGet (cal : Calibration) (key : String) : CalEntry :=
  (List.lookup key cal).getD {}

/-- PositionFeature.__init__. -/
def PositionFeature.new (g : Geom) (hand axis : String) (c : CalEntry) : PositionFeature :=
  let quad := c.quad.getD [(0, 0), (1, 0), (1, 1), (0, 1)]
  { hand := hand, axis := axis, quad := quad, H := g.homography quad,
    last_value := none, last_raw_value := none }

/-- MovementFeature.__init__. -/
def MovementFeature.new (hand axis : String) (c : CalEntry) : MovementFeature :=
  let axis_vec := c.axis.getD (if axis = "up" then (0, -1) else (1, 0))
  let range_norm := c.range_norm.getD 20
  { hand := hand, axis := axis, axis_vec := axis_vec, range_norm := range_norm,
    prev_palm := none, prev_hand := none, min := 0, max := range_norm,
    last_value := none, last_raw_value := none }

/-- CurvatureFeature.__init__. -/
def CurvatureFeature.new (hand : String) (ids : List ℕ) (c : CalEntry) : CurvatureFeature :=
  { hand := hand, ids := ids, min := c.min.getD 0, max := c.max.getD 4,
    last_value := none, last_raw_value := none }

/-- RelativeCurvatureFeature.__init__. -/
def RelativeCurvatureFeature.new (hand : String) (main : CurvatureFeature)
    (ref1 ref2 : Option CurvatureFeature) (c : CalEntry) : RelativeCurvatureFeature :=
  { hand := hand, main := main, ref1 := ref1, ref2 := ref2,
    min := c.min.getD (-0.2), max := c.max.getD 0.5,
    last_value := none, last_raw_value := none }

/-- BendFeature.__init__. -/
def BendFeature.new (hand : String) (mcp_id pip_id : ℕ) (c : CalEntry) : BendFeature :=
  { hand := hand, mcp_id := mcp_id, pip_id := pip_id,
    min := c.min.getD 0, max := c.max.getD (npPi / 2),
    last_value := none, last_raw_value := none }

/-- RelativeBendFeature.__init__. -/
def RelativeBendFeature.new (hand : String) (main : BendFeature)
    (ref1 ref2 : Option BendFeature) (c : CalEntry) : RelativeBendFeature :=
  { hand := hand, main := main, ref1 := ref1, ref2 := ref2,
    min := c.min.getD (-(npPi / 2)), max := c.max.getD (npPi / 2),
    last_value := none, last_raw_value := none }

/-- GestureFeature.__init__. -/
def GestureFeature.new (hand kind : String) (c : CalEntry) : GestureFeature :=
  { hand := hand, kind := kind, min := c.min.getD 0.3, max := c.max.getD 0.95,
    last_value := none, last_raw_value := none }

/-- DistanceFeature.__init__. -/
def DistanceFeature.new (hand : String) (id1 id2 : ℕ) (c : CalEntry) : DistanceFeature :=
  { hand := hand, id1 := id1, id2 := id2, min := c.min.getD 0.1, max := c.max.getD 0.8,
    last_value := none, last_raw_value := none }

/-- RotationFeature.__init__. -/
def RotationFeature.new (hand : String) (ref_id axis1_id axis2_id : ℕ) (c : CalEntry) :
    RotationFeature :=
  { hand := hand, ref_id := ref_id, axis1_id := axis1_id, axis2_id := axis2_id,
    min := c.min.getD (-npPi), max := c.max.getD npPi,
    last_value := none, last_raw_value := none }

/-- RollRotationFeature.__init__. -/
def RollRotationFeature.new (hand : String) (c : CalEntry) : RollRotationFeature :=
  { hand := hand, min := c.min.getD (-(npPi / 2)), max := c.max.getD (npPi / 2),
    last_value := none, last_raw_value := none }

/-- Finger name and full landmark id chains, as in FeatureIndex.__init__. -/
def finger_names : List (String × List ℕ) :=
  [("index", [HandState.INDEX_FINGER_MCP, HandState.INDEX_FINGER_PIP,
              HandState.INDEX_FINGER_DIP, HandState.INDEX_FINGER_TIP]),
   ("middle", [HandState.MIDDLE_FINGER_MCP, HandState.MIDDLE_FINGER_PIP,
               HandState.MIDDLE_FINGER_DIP, HandState.MIDDLE_FINGER_TIP]),
   ("ring", [HandState.RING_FINGER_MCP, HandState.RING_FINGER_PIP,
             HandState.RING_FINGER_DIP, HandState.RING_FINGER_TIP]),
   ("pinky", [HandState.PINKY_MCP, HandState.PINKY_PIP,
              HandState.PINKY_DIP, HandState.PINKY_TIP])]

/-- Reference fingers for the relative features (the rel_refs table). -/
def rel_refs (name : String) : List String :=
  if name = "index" then ["middle"]
  else if name = "middle" then ["index", "ring"]
  else if name = "ring" then ["middle", "pinky"]
  else if name = "pinky" then ["ring"]
  else []

/-- Curvature feature stored under hand.curv.name; used both for the registry
entry and for the lookups that the relative features perform against the
registry (the looked-up object is the one constructed here). -/
def curvOf (cal : Calibration) (hand name : String) (ids : List ℕ) : CurvatureFeature :=
  CurvatureFeature.new hand ids (calGet cal (hand ++ ".curv." ++ name))

/-- Bend feature stored under hand.bend.name. -/
def bendOf (cal : Calibration) (hand name : String) (ids : List ℕ) : BendFeature :=
  BendFeature.new hand (ids.getD 0 0) (ids.getD 3 0) (calGet cal (hand ++ ".bend." ++ name))

/-- Fingertip landmark ids used for the distance features. -/
def fingertip_names : List (String × ℕ) :=
  [("thumb", HandState.THUMB_TIP), ("index", HandState.INDEX_FINGER_TIP),
   ("middle", HandState.MIDDLE_FINGER_TIP), ("ring", HandState.RING_FINGER_TIP),
   ("pinky", HandState.PINKY_TIP)]

/-- Registry content built by one iteration of the outer hand loop of
FeatureIndex.__init__, in source order. Dictionary assignments become list
entries; the double assignments for distance features add both keys with the
same feature. -/
def featuresForHand (g : Geom) (cal : Calibration) (hand : String) :
    List (String × Feature) :=
  (["x", "y"].map (fun axis =>
      (hand ++ ".pos." ++ axis,
       Feature.pos (PositionFeature.new g hand axis (calGet cal (hand ++ ".pos")))))) ++
  (["up", "left"].map (fun axis =>
      (hand ++ ".motion." ++ axis,
       Feature.mov (MovementFeature.new hand axis (calGet cal (hand ++ ".motion." ++ axis)))))) ++
  (finger_names.map (fun p =>
      (hand ++ ".curv." ++ p.1, Feature.curv (curvOf cal hand p.1 p.2)))) ++
  [(hand ++ ".curv.thumb",
    Feature.curv (CurvatureFeature.new hand
      [HandState.THUMB_CMC, HandState.THUMB_MCP, HandState.THUMB_IP, HandState.THUMB_TIP]
      (calGet cal (hand ++ ".curv.thumb"))))] ++
  (finger_names.map (fun p =>
      let main := curvOf cal hand p.1 p.2
      let refs := rel_refs p.1
      let ref1 := (List.lookup (refs.getD 0 "") finger_names).map
        (fun ids => curvOf cal hand (refs.getD 0 "") ids)
      let ref2 := if refs.length > 1 then
          (List.lookup (refs.getD 1 "") finger_names).map
            (fun ids => curvOf cal hand (refs.getD 1 "") ids)
        else none
      let key := hand ++ ".curv." ++ p.1 ++ ".rel"
      (key, Feature.relCurv (RelativeCurvatureFeature.new hand main ref1 ref2 (calGet cal key))))) ++
  (finger_names.map (fun p =>
      (hand ++ ".bend." ++ p.1, Feature.bend (bendOf cal hand p.1 p.2)))) ++
  (finger_names.map (fun p =>
      let main := bendOf cal hand p.1 p.2
      let refs := rel_refs p.1
      let ref1 := (List.lookup (refs.getD 0 "") finger_names).map
        (fun ids => bendOf cal hand (refs.getD 0 "") ids)
      let ref2 := if refs.length > 1 then
          (List.lookup (refs.getD 1 "") finger_names).map
            (fun ids => bendOf cal hand (refs.getD 1 "") ids)
        else none
      let key := hand ++ ".bend." ++ p.1 ++ ".rel"
      (key, Feature.relBend (RelativeBendFeature.new hand main ref1 ref2 (calGet cal key))))) ++
  [(hand ++ ".gesture.closed",
    Feature.gesture (GestureFeature.new hand "closed" (calGet cal (hand ++ ".gesture.closed"))))] ++
  (fingertip_names.enum.flatMap (fun ia =>
    fingertip_names.enum.flatMap (fun jb =>
      if ia.1 < jb.1 then
        let key1 := hand ++ ".dist." ++ ia.2.1 ++ "." ++ jb.2.1
        let key2 := hand ++ ".dist." ++ jb.2.1 ++ "." ++ ia.2.1
        let f := Feature.dist (DistanceFeature.new hand ia.2.2 jb.2.2 (calGet cal key1))
        [(key1, f), (key2, f)]
      else []))) ++
  (let f := Feature.dist (DistanceFeature.new hand HandState.THUMB_IP HandState.INDEX_FINGER_MCP
              (calGet cal (hand ++ ".dist.thumb.hand")))
   [(hand ++ ".dist.thumb.hand", f), (hand ++ ".dist.hand.thumb", f)]) ++
  (let roll_feature := Feature.roll (RollRotationFeature.new hand
      (calGet cal (hand ++ ".rotation.roll")))
   [(hand ++ ".rotation.roll", roll_feature), (hand ++ ".rotation", roll_feature)]) ++
  [(hand ++ ".rotation.pitch",
    Feature.rot (RotationFeature.new hand HandState.PINKY_MCP HandState.WRIST
      HandState.PALM_CENTER (calGet cal (hand ++ ".rotation.pitch"))))]

/-- FeatureIndex from src/input/features.py. -/
structure FeatureIndex where
  features : List (String × Feature)

/-- FeatureIndex.__init__: the hand loop runs over right_hand then left_hand
(note that these selector strings are stored verbatim on the features). -/
def FeatureIndex.init (g : Geom) (cal : Calibration) : FeatureIndex :=
  ⟨featuresForHand g cal "right_hand" ++ featuresForHand g cal "left_hand"⟩

/-- FeatureIndex.getFeature: dictionary lookup, none when absent. -/
def FeatureIndex.getFeature (idx : FeatureIndex) (name : String) : Option Feature :=
  List.lookup name idx.features

/-- Dictionary lookup with a possibly missing name (dict.get(None) is None). -/
def FeatureIndex.getFeatureOpt (idx : FeatureIndex) (name : Option String) : Option Feature :=
  match name with
  | none => none
  | some n => idx.getFeature n

/-- Gate from src/gate/gate.py. The input_feature reference is carried for the
builder claims; getState below receives the sampled feature value explicitly. -/
structure Gate where
  input_feature : Option Feature
  op : String
  trigger_pct : ℚ
  release_pct : ℚ
  refractory_ms : ℤ
  lost_hand_policy : String
  state : Bool
  t_last : ℤ
  last_value : Option ℚ
  last_tracked : Bool
  last_time : ℤ
deriving DecidableEq

/-- Gate.__init__. -/
def Gate.new (input_feature : Option Feature) (op : String) (trigger_pct release_pct : ℚ)
    (refractory_ms : ℤ) (lost_hand_policy : String) : Gate :=
  { input_feature := input_feature, op := op, trigger_pct := trigger_pct,
    release_pct := release_pct, refractory_ms := refractory_ms,
    lost_hand_policy := lost_hand_policy, state := false, t_last := 0,
    last_value := none, last_tracked := false, last_time := 0 }

/-- Gate.getState. The now_ms argument stands for int(time.time() * 1000) and
val for the result of input_feature.getValue on the current snapshots (none
both when the feature reports no value and when it raised). Returns the bool
result paired with the mutated gate. -/
def Gate.getState (g : Gate) (now_ms : ℤ) (val : Option ℚ) : Bool × Gate :=
  let g0 := { g with last_value := val, last_tracked := val.isSome, last_time := now_ms }
  match val with
  | none =>
    if g0.lost_hand_policy = "hold" then (g0.state, g0)
    else if g0.lost_hand_policy = "true" then (true, { g0 with state := true })
    else if g0.lost_hand_policy = "toggle" then
      if now_ms - g0.t_last > g0.refractory_ms then
        (!g0.state, { g0 with state := !g0.state, t_last := now_ms })
      else (g0.state, g0)
    else (false, { g0 with state := false })
  | some v =>
    let desired : Bool := if g0.op = ">" then decide (v > g0.trigger_pct)
                          else decide (v < g0.trigger_pct)
    let release_ok : Bool := if g0.op = ">" then decide (v < g0.release_pct)
                             else decide (v > g0.release_pct)
    let g1 :=
      if g0.state = false then
        if desired && decide (now_ms - g0.t_last > g0.refractory_ms) then
          { g0 with state := true, t_last := now_ms }
        else g0
      else
        if release_ok && decide (now_ms - g0.t_last > g0.refractory_ms) then
          { g0 with state := false, t_last := now_ms }
        else g0
    (g1.state, g1)

/-- Gate configuration block (the gate_cfg dictionary). -/
structure GateCfg where
  input : Option String := none
  op : Option String := none
  trigger_pct : Option ℚ := none
  release_pct : Option ℚ := none
  refractory_ms : Option ℤ := none
  lost_hand_policy : Option String := none
deriving DecidableEq

/-- GateBuilder.build from src/gate/gate.py: none for an absent (falsy)
gate_cfg; otherwise a Gate whose feature is looked up by name, possibly none. -/
def GateBuilder.build (idx : FeatureIndex) (cfg : Option GateCfg) : Option Gate :=
  match cfg with
  | none => none
  | some c =>
    some (Gate.new (idx.getFeatureOpt c.input) (c.op.getD ">") (c.trigger_pct.getD 0.5)
      (c.release_pct.getD 0.45) (c.refractory_ms.getD 120) (c.lost_hand_policy.getD "release"))

/-- Actuator values built by ActuatorBuilder in src/outputs/actuators.py, one
constructor per concrete class; pair is ActuatorPair. -/
inductive Actuator where
  | pair (trigger_actuator release_actuator : Option Actuator)
  | mouseMoveDelta (axis : String)
  | mouseScrollDelta (axis : String)
  | mouseButtonEvent (button : String) (event : String)
  | mouseAbs (axis : String)
  | keyEvent (key : String) (event : String)
  | keyboardDelta (key : String)
  | keyboardAbs (key : String)

/-- Test for isinstance(actuator, ActuatorPair), which is also what the
hasattr trigger_actuator / release_actuator checks detect. -/
def Actuator.isPairA : Actuator → Bool
  | .pair _ _ => true
  | _ => false

/-- Test for isinstance(actuator, EventActuator). -/
def Actuator.isEventA : Actuator → Bool
  | .mouseButtonEvent _ _ => true
  | .keyEvent _ _ => true
  | _ => false

/-- Test for isinstance(actuator, DeltaActuator). -/
def Actuator.isDeltaA : Actuator → Bool
  | .mouseMoveDelta _ => true
  | .mouseScrollDelta _ => true
  | .keyboardDelta _ => true
  | _ => false

/-- Test for isinstance(actuator, AbsActuator). -/
def Actuator.isAbsA : Actuator → Bool
  | .mouseAbs _ => true
  | .keyboardAbs _ => true
  | _ => false

/-- Actuator configuration: either a string key or the nested
trigger/release dictionary. -/
inductive ActuatorCfg where
  | str (key : String)
  | pairc (trigger : Option ActuatorCfg) (release : Option ActuatorCfg)

/-- Model of str.startswith: prefix test on the character lists. -/
def strStartsWith (s p : String) : Bool := p.data.isPrefixOf s.data

/-- Model of str.split with the dot separator, on the character list. -/
def splitOnDotChars : List Char → List (List Char)
  | [] => [[]]
  | ch :: rest =>
    let r := splitOnDotChars rest
    if ch = '.' then [] :: r
    else
      match r with
      | [] => [[ch]]
      | grp :: gs => (ch :: grp) :: gs

/-- Model of key.split on the dot separator. -/
def splitDot (s : String) : List String := (splitOnDotChars s.data).map List.asString

/-- ActuatorBuilder.build on a string key: the if chain of
src/outputs/actuators.py in source order, ending in the ValueError. The
startswith and split operations are modelled by strStartsWith and splitDot. -/
def ActuatorBuilder.buildKey (key : String) : Except String Actuator :=
  if key = "mouse.move.x" then .ok (.mouseMoveDelta "x")
  else if key = "mouse.move.y" then .ok (.mouseMoveDelta "y")
  else if key = "mouse.scroll.x" then .ok (.mouseScrollDelta "x")
  else if key = "mouse.scroll.y" then .ok (.mouseScrollDelta "y")
  else if key = "mouse.click.left.down" then .ok (.mouseButtonEvent "left" "down")
  else if key = "mouse.click.left.up" then .ok (.mouseButtonEvent "left" "up")
  else if key = "mouse.click.right.down" then .ok (.mouseButtonEvent "right" "down")
  else if key = "mouse.click.right.up" then .ok (.mouseButtonEvent "right" "up")
  else if key = "mouse.click.middle.down" then .ok (.mouseButtonEvent "middle" "down")
  else if key = "mouse.click.middle.up" then .ok (.mouseButtonEvent "middle" "up")
  else if key = "mouse.click.left" then
    .ok (.pair (some (.mouseButtonEvent "left" "down")) (some (.mouseButtonEvent "left" "up")))
  else if key = "mouse.click.right" then
    .ok (.pair (some (.mouseButtonEvent "right" "down")) (some (.mouseButtonEvent "right" "up")))
  else if key = "mouse.click.middle" then
    .ok (.pair (some (.mouseButtonEvent "middle" "down")) (some (.mouseButtonEvent "middle" "up")))
  else if strStartsWith key "key." && (splitDot key).length = 3 then
    let parts := splitDot key
    .ok (.keyEvent (parts.getD 1 "") (parts.getD 2 ""))
  else if strStartsWith key "key." && (splitDot key).length = 2 then
    let parts := splitDot key
    .ok (.pair (some (.keyEvent (parts.getD 1 "") "down"))
               (some (.keyEvent (parts.getD 1 "") "up")))
  else if strStartsWith key "key.delta." then .ok (.keyboardDelta ((splitDot key).getLastD ""))
  else if strStartsWith key "key.abs." then .ok (.keyboardAbs ((splitDot key).getLastD ""))
  else if key = "mouse.pos.x" then .ok (.mouseAbs "x")
  else if key = "mouse.pos.y" then .ok (.mouseAbs "y")
  else .error ("Unknown actuator key: " ++ key)

/-- ActuatorBuilder.build: a dict argument builds an ActuatorPair from its
trigger and release sub-configurations (absent sub-configurations give none
without building). -/
def ActuatorBuilder.build : ActuatorCfg → Except String Actuator
  | .str key => ActuatorBuilder.buildKey key
  | .pairc trigger release =>
    match trigger with
    | none =>
      match release with
      | none => .ok (.pair none none)
      | some rc =>
        match ActuatorBuilder.build rc with
        | .error e => .error e
        | .ok ra => .ok (.pair none (some ra))
    | some tc =>
      match ActuatorBuilder.build tc with
      | .error e => .error e
      | .ok ta =>
        match release with
        | none => .ok (.pair (some ta) none)
        | some rc =>
          match ActuatorBuilder.build rc with
          | .error e => .error e
          | .ok ra => .ok (.pair (some ta) (some ra))

/-- ActuatorBuilder.build applied to config.get(actuator): a missing actuator
entry reaches the final ValueError branch. -/
def ActuatorBuilder.buildTop : Option ActuatorCfg → Except String Actuator
  | none => .error "Unknown actuator key: None"
  | some c => ActuatorBuilder.build c

/-- EventBinding from src/binding/binding.py (the Binding base-class fields
are inlined). The custom fields keep the constructor arguments, possibly None. -/
structure EventBinding where
  feature : Option Feature
  gate : Option Gate
  actuator : Actuator
  event_type : Option String
  id : Option String
  prev_state : Bool
  last_transition_time : ℤ
  custom_trigger_pct : Option ℚ
  custom_release_pct : Option ℚ
  custom_refractory_ms : Option ℤ
  custom_op : Option String
  last_state : Option Bool
  last_value : Option ℚ
  last_time : Option String

/-- EventBinding.update. The now_ms argument stands for the sampled clock,
value for self.feature.getValue on the snapshots, and gate_state for
self.gate.getState (True when the gate is absent). The actuator call is
modelled by the returned emission: some down when the down/trigger action is
invoked, some up when the up/release action is invoked on an ActuatorPair,
none otherwise. Mirrors the source exactly, including now_state being
initialized to False on every call. -/
def EventBinding.update (b : EventBinding) (now_ms : ℤ) (value : Option ℚ)
    (gate_state : Bool) : Option String × EventBinding :=
  let trigger_pct := b.custom_trigger_pct.getD 0.5
  let release_pct := b.custom_release_pct.getD 0.45
  let refractory_ms := b.custom_refractory_ms.getD 120
  let op := b.custom_op.getD ">"
  let step : Bool × ℤ :=
    if gate_state then
      match value with
      | some v =>
        if b.prev_state = false then
          let desired : Bool := if op = ">" then decide (v > trigger_pct)
                                else decide (v < trigger_pct)
          if desired && decide (now_ms - b.last_transition_time > refractory_ms) then
            (true, now_ms)
          else (false, b.last_transition_time)
        else
          let release_ok : Bool := if op = ">" then decide (v < release_pct)
                                   else decide (v > release_pct)
          if !release_ok then (true, b.last_transition_time)
          else if decide (now_ms - b.last_transition_time > refractory_ms) then
            (false, now_ms)
          else (false, b.last_transition_time)
      | none => (false, b.last_transition_time)
    else (false, b.last_transition_time)
  let now_state := step.1
  let isPair := b.actuator.isPairA
  let emission : Option String :=
    if now_state && !b.prev_state then some "down"
    else if !now_state && b.prev_state then (if isPair then some "up" else none)
    else none
  let lt : Option String :=
    if now_state && !b.prev_state then some "down"
    else if !now_state && b.prev_state then some "up"
    else none
  (emission,
   { b with prev_state := now_state, last_transition_time := step.2,
            last_state := some now_state, last_value := value, last_time := lt })

/-- Binding: the three binding kinds; delta and abs keep their kind-specific
parameters from the constructor. -/
inductive Binding where
  | event (b : EventBinding)
  | delta (feature : Option Feature) (gate : Option Gate) (actuator : Actuator)
      (scale deadzone : ℚ) (id : Option String)
  | abs (feature : Option Feature) (gate : Option Gate) (actuator : Actuator)
      (min_value max_value : ℚ) (id : Option String)

/-- Feature reference held by a binding. -/
def Binding.featureOf : Binding → Option Feature
  | .event b => b.feature
  | .delta feature _ _ _ _ _ => feature
  | .abs feature _ _ _ _ _ => feature

/-- Gate reference held by a binding. -/
def Binding.gateOf : Binding → Option Gate
  | .event b => b.gate
  | .delta _ gate _ _ _ _ => gate
  | .abs _ gate _ _ _ _ => gate

/-- Binding configuration dictionary (the keys read by BindingBuilder.build). -/
structure BindingCfg where
  actuator : Option ActuatorCfg := none
  type : Option String := none
  input : Option String := none
  feature : Option String := none
  gate : Option GateCfg := none
  sensitivity : Option ℚ := none
  scale : Option ℚ := none
  deadzone : Option ℚ := none
  min : Option ℚ := none
  max : Option ℚ := none
  id : Option String := none
  event_type : Option String := none
  trigger_pct : Option ℚ := none
  release_pct : Option ℚ := none
  refractory_ms : Option ℤ := none
  op : Option String := none

/-- BindingBuilder.build from src/binding/binding.py. A raised ValueError is
an error result; the feature lookup and the gate construction never fail, and
the kind inference falls back to event. -/
def BindingBuilder.build (cfg : BindingCfg) (feature_index : FeatureIndex) :
    Except String Binding :=
  match ActuatorBuilder.buildTop cfg.actuator with
  | .error e => .error e
  | .ok actuator =>
    let kind : String :=
      match cfg.type with
      | some k => k
      | none =>
        if actuator.isPairA then "event"
        else if actuator.isEventA then "event"
        else if actuator.isDeltaA then "delta"
        else if actuator.isAbsA then "abs"
        else "event"
    let feature_name : Option String :=
      match cfg.input with
      | some s => if s = "" then cfg.feature else some s
      | none => cfg.feature
    let feature := feature_index.getFeatureOpt feature_name
    let gate := GateBuilder.build feature_index cfg.gate
    let scale := cfg.sensitivity.getD (cfg.scale.getD 1)
    let deadzone := cfg.deadzone.getD 0
    let min_value := cfg.min.getD 0
    let max_value := cfg.max.getD 1
    if kind = "event" then
      .ok (.event
        { feature := feature, gate := gate, actuator := actuator,
          event_type := cfg.event_type, id := cfg.id, prev_state := false,
          last_transition_time := 0, custom_trigger_pct := cfg.trigger_pct,
          custom_release_pct := cfg.release_pct, custom_refractory_ms := cfg.refractory_ms,
          custom_op := cfg.op, last_state := none, last_value := none, last_time := none })
    else if kind = "delta" then
      .ok (.delta feature gate actuator scale deadzone cfg.id)
    else if kind = "abs" then
      .ok (.abs feature gate actuator min_value max_value cfg.id)
    else .error ("Unknown binding type: " ++ kind)

/-- BindingIndex.__init__: builds every configured binding in order; a raised
ValueError propagates and aborts the whole construction. -/
def BindingIndex.init (bindings_cfg : List BindingCfg) (feature_index : FeatureIndex) :
    Except String (List Binding) :=
  match bindings_cfg with
  | [] => .ok []
  | c :: rest =>
    match BindingBuilder.build c feature_index with
    | .error e => .error e
    | .ok b =>
      match BindingIndex.init rest feature_index with
      | .error e => .error e
      | .ok bs => .ok (b :: bs)

/-- HandSmoother from src/input/smoothing.py: the per-label window of
timestamped snapshots. -/
structure HandSmoother where
  smoothing_time : ℚ
  window : List (ℚ × HandState)
deriving DecidableEq

/-- HandSmoother.add: append the timestamped snapshot. -/
def HandSmoother.add (s : HandSmoother) (hand : HandState) (timestamp : ℚ) : HandSmoother :=
  { s with window := s.window ++ [(timestamp, hand)] }

/-- HandSmoother._prune: pop entries from the front while they are strictly
older than now - smoothing_time. -/
def HandSmoother.prune (s : HandSmoother) (now : ℚ) : HandSmoother :=
  let cutoff := now - s.smoothing_time
  { s with window := s.window.dropWhile (fun e => decide (e.1 < cutoff)) }

/-- Weighted landmark accumulation of HandSmoother.get_smoothed: iterating
reversed(window), the newest snapshot enters with weight 3 and each remaining
snapshot is added once, then the sum is divided by count + 2. -/
def smoothedLandmark (newest : HandState) (rest : List (ℚ × HandState)) (n : ℕ) (i : ℕ) :
    MultiLandmark :=
  let base := (newest.landmarks.getD i defaultLM).smul 3
  let total := rest.foldl (fun acc e => acc + e.2.landmarks.getD i defaultLM) base
  total.sdiv ((n : ℚ) + 2)

/-- HandSmoother.get_smoothed: none on an empty window, otherwise a HandState
whose landmarks average the window with the recency bias, labelled like the
newest entry. The palm width of the result is palm_width(avg_lms) from
src/input/geometry.py, whose hypot is the oracle. -/
def HandSmoother.get_smoothed (g : Geom) (s : HandSmoother) : Option HandState :=
  match s.window.reverse with
  | [] => none
  | (_, newest) :: rest =>
    let avg_lms := (List.range newest.landmarks.length).map
      (fun i => smoothedLandmark newest rest s.window.length i)
    let wv := avg_lms.getD HandState.PINKY_MCP defaultLM - avg_lms.getD HandState.INDEX_FINGER_MCP defaultLM
    some { label := newest.label, landmarks := avg_lms, palm_width := g.hypot3 wv.wx wv.wy wv.wz }

/-- HandSmoother.smooth: add the new snapshot at now, prune, then return the
smoothed snapshot, paired with the updated smoother. -/
def HandSmoother.smooth (g : Geom) (s : HandSmoother) (hand : HandState) (now : ℚ) :
    Option HandState × HandSmoother :=
  let s1 := (s.add hand now).prune now
  (s1.get_smoothed g, s1)

/-- Concrete gate used to refute the boundary case of the toggle policy. -/
def toggleGate : Gate := Gate.new none ">" 0.5 0.45 250 "toggle"

/-- Actuator pair used by the event-binding scenario (for example a mouse
click pair, supporting both the down and the up action). -/
def c2Actuator : Actuator :=
  .pair (some (.mouseButtonEvent "left" "down")) (some (.mouseButtonEvent "left" "up"))

/-- Freshly built event binding with trigger_pct 0.8, release_pct 0.6,
refractory_ms 250 and no gate (so the gate reads True, an open gate). -/
def c2Binding : EventBinding :=
  { feature := none, gate := none, actuator := c2Actuator, event_type := none,
    id := none, prev_state := false, last_transition_time := 0,
    custom_trigger_pct := some 0.8, custom_release_pct := some 0.6,
    custom_refractory_ms := some 250, custom_op := none,
    last_state := none, last_value := none, last_time := none }

/-- Emissions of the three evaluations at 100000, 100100 and 100200 ms (all
inside one 250 ms window) with feature values 0, then 0.9, then 0.3. -/
def c2Emissions : List (Option String) :=
  let r1 := c2Binding.update 100000 (some 0) true
  let r2 := r1.2.update 100100 (some 0.9) true
  let r3 := r2.2.update 100200 (some 0.3) true
  [r1.1, r2.1, r3.1]

/-- Movement feature as built by the index for the motion.left axis with an
empty calibration entry: axis vector (1, 0), range_norm 20. -/
def mvF : MovementFeature := MovementFeature.new "right_hand" "left" {}

/-- Palm-center landmark at screen x 0 (unit frame). -/
def palmA : MultiLandmark := ⟨0, 0, 0, 0, 0, 0, 1, 1⟩

/-- Palm-center landmark at screen x 10 (unit frame). -/
def palmB : MultiLandmark := ⟨10, 0, 0, 0, 0, 0, 1, 1⟩

/-- Right-hand snapshot with palm center at palmA. -/
def handA : HandState := ⟨"Right", List.replicate 21 defaultLM ++ [palmA], 0⟩

/-- Right-hand snapshot with palm center at palmB, a +10 unit shift. -/
def handB : HandState := ⟨"Right", List.replicate 21 defaultLM ++ [palmB], 0⟩

/-- Trivial geometry oracle used for concrete witnesses. -/
def g0 : Geom :=
  ⟨fun _ _ => 0, fun _ _ _ => 0, fun _ _ _ => 0, fun _ _ _ _ => none, fun _ => none,
   fun _ => ⟨1, 0, 0, 0, 1, 0, 0, 0, 1⟩⟩


/-- Position feature as registered in the index under left_hand.pos.x; its
selector string is left_hand, never equal to the string left that the
selection idiom tests. -/
def c1LeftFeature : Feature := Feature.pos (PositionFeature.new g0 "left_hand" "x" {})

/-- Feature index for the binding-builder scenarios. -/
def c3Index : FeatureIndex := FeatureIndex.init g0 []

/-- Binding configuration whose input names a feature unknown to the index,
with a valid delta actuator key. -/
def c3Cfg : BindingCfg := { actuator := some (.str "mouse.move.x"), input := some "no.such.feature" }

/-- Minimal hand snapshot used in the smoother witnesses. -/
def hW : HandState := ⟨"Right", [], 0⟩

/-- C8: feature normalization computes (raw - min) / (max - min) whenever the
range magnitude is at least 1e-6 and 0 otherwise, is not clamped (with min 0
and max 1 it is the identity, so normalize 0 is 0 and normalize 1 is 1), and
for an inverted calibration (min above max, non-degenerate range) it is
monotonically decreasing in the raw value. -/
theorem normalize_value_linear_spec :
    (∀ min_v max_v raw : ℚ, 1 / 1000000 ≤ |max_v - min_v| →
        normalize_value min_v max_v raw = (raw - min_v) / (max_v - min_v)) ∧
    (∀ min_v max_v raw : ℚ, |max_v - min_v| < 1 / 1000000 →
        normalize_value min_v max_v raw = 0) ∧
    (∀ raw : ℚ, normalize_value 0 1 raw = raw) ∧
    (normalize_value 0 1 0 = 0 ∧ normalize_value 0 1 1 = 1) ∧
    (∀ min_v max_v r1 r2 : ℚ, max_v < min_v → 1 / 1000000 ≤ |max_v - min_v| →
        r1 < r2 → normalize_value min_v max_v r2 < normalize_value min_v max_v r1) := by
  refine ⟨?hfor, ?hdeg, ?hid, ⟨?hz, ?ho⟩, ?hmono⟩
  · intro min_v max_v raw h
    simp only [normalize_value]
    rw [if_neg (not_lt.mpr h)]
  · intro min_v max_v raw h
    simp only [normalize_value]
    rw [if_pos h]
  · intro raw
    norm_num [normalize_value]
  · norm_num [normalize_value]
  · norm_num [normalize_value]
  · intro min_v max_v r1 r2 hlt hrng h12
    have hneg : max_v - min_v < 0 := by linarith
    simp only [normalize_value]
    rw [if_neg (not_lt.mpr hrng), if_neg (not_lt.mpr hrng)]
    exact div_lt_div_of_neg_of_lt hneg (by linarith)

/-- Witness for C8 at concrete inputs: the formula at min 0, max 2, raw 1, and
the inverted-scale monotonicity at min 1, max 0 with raw values 0 and 1. -/
theorem normalize_value_linear_spec_witness :
    normalize_value 0 2 1 = (1 - 0) / (2 - 0) ∧
    normalize_value 1 0 1 < normalize_value 1 0 0 := by
  constructor
  · exact normalize_value_linear_spec.1 0 2 1 (by norm_num)
  · exact normalize_value_linear_spec.2.2.2.2 1 0 0 1 (by norm_num) (by norm_num) (by norm_num)

/-- C4: a gate starts Closed; with a tracked value, from Closed it opens
exactly when the desired comparison holds and more than refractory_ms elapsed
since the last transition (updating the timestamp), from Open it closes
exactly when the release comparison holds and more than refractory_ms
elapsed, otherwise state and timestamp are kept; in particular a value
strictly between the two thresholds changes nothing, and the returned bool is
the stored state. -/
theorem gate_tracked_hysteresis :
    (∀ ft op tp rp rm lp, (Gate.new ft op tp rp rm lp).state = false) ∧
    (∀ (g : Gate) (now_ms : ℤ) (v : ℚ),
      let desired : Prop := if g.op = ">" then g.trigger_pct < v else v < g.trigger_pct
      let release_ok : Prop := if g.op = ">" then v < g.release_pct else g.release_pct < v
      let out := g.getState now_ms (some v)
      (out.1 = out.2.state) ∧
      (g.state = false →
        ((desired ∧ g.refractory_ms < now_ms - g.t_last) →
            out.2.state = true ∧ out.2.t_last = now_ms) ∧
        (¬(desired ∧ g.refractory_ms < now_ms - g.t_last) →
            out.2.state = false ∧ out.2.t_last = g.t_last)) ∧
      (g.state = true →
        ((release_ok ∧ g.refractory_ms < now_ms - g.t_last) →
            out.2.state = false ∧ out.2.t_last = now_ms) ∧
        (¬(release_ok ∧ g.refractory_ms < now_ms - g.t_last) →
            out.2.state = true ∧ out.2.t_last = g.t_last)) ∧
      ((¬desired ∧ ¬release_ok) → out.2.state = g.state ∧ out.2.t_last = g.t_last)) := by
  constructor
  · intro ft op tp rp rm lp; rfl
  · intro g now_ms v
    by_cases hop : g.op = ">"
    · by_cases hst : g.state <;>
      by_cases hd : g.trigger_pct < v <;>
      by_cases hr : v < g.release_pct <;>
      by_cases he : g.refractory_ms < now_ms - g.t_last <;>
        simp [Gate.getState, hop, hst, hd, hr, he]
    · by_cases hst : g.state <;>
      by_cases hd : v < g.trigger_pct <;>
      by_cases hr : g.release_pct < v <;>
      by_cases he : g.refractory_ms < now_ms - g.t_last <;>
        simp [Gate.getState, hop, hst, hd, hr, he]

/-- Witness for C4: a concrete closed gate with operator greater-than,
trigger 0.5, value 0.6 and elapsed time beyond the refractory opens and
updates its timestamp. -/
theorem gate_tracked_hysteresis_witness :
    ((Gate.new none ">" (1/2) (45/100) 120 "release").getState 1000 (some (6/10))).2.state = true ∧
    ((Gate.new none ">" (1/2) (45/100) 120 "release").getState 1000 (some (6/10))).2.t_last = 1000 := by
  have h := (gate_tracked_hysteresis.2 (Gate.new none ">" (1/2) (45/100) 120 "release")
    1000 (6/10)).2.1 rfl
  refine h.1 ⟨?_, ?_⟩
  · show (1/2 : ℚ) < 6/10
    norm_num
  · show (120 : ℤ) < 1000 - 0
    norm_num

/-- C5 counterexample: with the toggle lost-hand policy, at the instant when
exactly refractory_ms have elapsed since the last transition (at least
refractory_ms in the sense of the claim), feeding untracked does not flip the
state: the gate stays Closed, because the source demands strictly more than
refractory_ms. -/
theorem gate_toggle_exact_refractory_no_flip :
    toggleGate.lost_hand_policy = "toggle" ∧
    toggleGate.state = false ∧
    (250 : ℤ) - toggleGate.t_last ≥ toggleGate.refractory_ms ∧
    (toggleGate.getState 250 none).2.state = false ∧
    (toggleGate.getState 250 none).1 = false := by
  refine ⟨rfl, rfl, by norm_num [toggleGate, Gate.new], ?_, ?_⟩ <;> rfl

/-- C5 as amended: when the feature is untracked, the gate result is decided
by the lost-hand policy alone: release forces Closed immediately with no
refractory delay, hold keeps state and timestamp, true forces Open, and
toggle flips the state iff strictly more than refractory_ms elapsed since the
last transition (updating the timestamp on a flip, keeping everything
otherwise). -/
theorem gate_untracked_lost_hand_policy :
    ∀ (g : Gate) (now_ms : ℤ),
      let out := g.getState now_ms none
      (g.lost_hand_policy = "release" → out.1 = false ∧ out.2.state = false) ∧
      (g.lost_hand_policy = "hold" →
          out.1 = g.state ∧ out.2.state = g.state ∧ out.2.t_last = g.t_last) ∧
      (g.lost_hand_policy = "true" → out.1 = true ∧ out.2.state = true) ∧
      (g.lost_hand_policy = "toggle" →
        (g.refractory_ms < now_ms - g.t_last →
            out.1 = !g.state ∧ out.2.state = !g.state ∧ out.2.t_last = now_ms) ∧
        (¬(g.refractory_ms < now_ms - g.t_last) →
            out.1 = g.state ∧ out.2.state = g.state ∧ out.2.t_last = g.t_last)) := by
  intro g now_ms
  by_cases hp1 : g.lost_hand_policy = "hold" <;>
  by_cases hp2 : g.lost_hand_policy = "true" <;>
  by_cases hp3 : g.lost_hand_policy = "toggle" <;>
    simp_all [Gate.getState] <;>
    split_ifs with he <;> simp_all <;> omega

/-- Witness for C5 amended: a concrete open gate with the release policy fed
untracked closes immediately even though no time elapsed since its last
transition. -/
theorem gate_untracked_lost_hand_policy_witness :
    (({ Gate.new none ">" 0.5 0.45 250 "release" with state := true, t_last := 1000 }).getState
      1000 none).2.state = false := by
  exact ((gate_untracked_lost_hand_policy
    { Gate.new none ">" 0.5 0.45 250 "release" with state := true, t_last := 1000 } 1000).1 rfl).2

/-- C2: evaluating the concrete scenario of the claim, the source emits the
down action at the second evaluation and the up action at the third, only
100 ms after the down transition and inside the 250 ms window: the release
refractory check only suppresses the timestamp update, not the release
itself, because now_state is re-initialized to False on every call. -/
theorem eventBinding_emits_up_inside_refractory_window :
    c2Emissions = [none, some "down", some "up"] ∧
    (100200 : ℤ) - 100000 ≤ 250 ∧ (100200 : ℤ) - 100100 ≤ 250 := by
  refine ⟨?_, by norm_num, by norm_num⟩
  norm_num [c2Emissions, EventBinding.update, c2Binding, c2Actuator, Actuator.isPairA]

/-- C6: calling MovementFeature.getValue a second time with the same snapshot
pair returns the identical value and leaves the feature state unchanged (the
cached last value is returned instead of re-integrating a palm-center
delta). -/
theorem movement_getValue_idempotent_same_snapshot
    (f : MovementFeature) (l r : Option HandState) :
    ((f.getValue l r).2).getValue l r = f.getValue l r := by
  rcases hsel : selectHand f.hand l r with _ | h
  · simp [MovementFeature.getValue, hsel]
  · by_cases hc : f.prev_hand = some h
    · simp [MovementFeature.getValue, hsel, hc]
    · rcases hpp : f.prev_palm with _ | pp
      · simp [MovementFeature.getValue, hsel, hc, hpp]
      · simp [MovementFeature.getValue, hsel, hc, hpp]

/-- C7: a MovementFeature returns neutral 0.0 on the first observation of its
hand (no prior palm center), on later frames returns the palm-center
displacement projected on the calibrated axis, divided by range_norm (its
min is 0 and its max is range_norm) and clamped to the interval from -1 to 1,
and when the hand disappears it resets its history so that the next
appearance yields neutral 0.0 again. -/
theorem movement_neutral_delta_reset (f : MovementFeature) (l r : Option HandState) :
    (∀ h : HandState, selectHand f.hand l r = some h → f.prev_hand = none →
        f.prev_palm = none → (f.getValue l r).1 = some 0) ∧
    (∀ (h : HandState) (pp : MultiLandmark),
        selectHand f.hand l r = some h → f.prev_hand ≠ some h → f.prev_palm = some pp →
        f.min = 0 → f.max = f.range_norm → 1 / 1000000 ≤ |f.range_norm| →
        (f.getValue l r).1 = some (Max.max (-1) (Min.min 1
          (((h.landmarks.getD HandState.PALM_CENTER defaultLM - pp).sx * f.axis_vec.1 +
            (h.landmarks.getD HandState.PALM_CENTER defaultLM - pp).sy * f.axis_vec.2)
            / f.range_norm)))) ∧
    (selectHand f.hand l r = none →
        (f.getValue l r).1 = none ∧ (f.getValue l r).2.prev_palm = none ∧
        (f.getValue l r).2.prev_hand = none) ∧
    (∀ (l2 r2 : Option HandState) (h2 : HandState),
        selectHand f.hand l r = none → selectHand f.hand l2 r2 = some h2 →
        (((f.getValue l r).2).getValue l2 r2).1 = some 0) := by
  refine ⟨?p1, ?p2, ?p3, ?p4⟩
  · intro h hsel hph hpp
    simp [MovementFeature.getValue, hsel, hph, hpp]
  · intro h pp hsel hph hpp hmin hmax hrng
    simp only [MovementFeature.getValue, hsel]
    rw [if_neg hph]
    simp only [hpp, normalize_value, hmin, hmax]
    rw [if_neg (by rw [sub_zero]; exact not_lt.mpr hrng)]
    simp [sub_zero]
  · intro hsel
    simp [MovementFeature.getValue, hsel]
  · intro l2 r2 h2 hsel hsel2
    simp [MovementFeature.getValue, hsel, hsel2]

/-- Witness for C7: the first observation yields 0.0, and the next frame with
a +10 unit palm-center shift and range_norm 20 yields 0.5. -/
theorem movement_neutral_delta_reset_witness :
    (mvF.getValue none (some handA)).1 = some 0 ∧
    (((mvF.getValue none (some handA)).2).getValue none (some handB)).1 = some (1/2) := by
  have hf1 : (mvF.getValue none (some handA)).2 =
      { mvF with prev_hand := some handA, prev_palm := some palmA,
                 last_value := some 0, last_raw_value := some 0 } := by rfl
  constructor
  · exact (movement_neutral_delta_reset mvF none (some handA)).1 handA rfl rfl rfl
  · rw [hf1]
    have h2 := (movement_neutral_delta_reset
      { mvF with prev_hand := some handA, prev_palm := some palmA,
                 last_value := some 0, last_raw_value := some 0 }
      none (some handB)).2.1 handB palmA rfl ?hne rfl rfl rfl ?hrng
    · have hax : mvF.axis_vec = (1, 0) := rfl
      have hgd : handB.landmarks.getD HandState.PALM_CENTER defaultLM = palmB := rfl
      have hsub : palmB - palmA = ⟨10, 0, 0, 0, 0, 0, 1, 1⟩ := by
        show MultiLandmark.sub palmB palmA = _
        norm_num [MultiLandmark.sub, palmB, palmA]
      have hrn : mvF.range_norm = 20 := rfl
      rw [h2, hgd, hsub, hax, hrn]
      norm_num [MultiLandmark.sx, MultiLandmark.sy, min_def, max_def]
    · intro hcontra
      have : handA = handB := by
        simpa using hcontra
      simp [handA, handB, palmA, palmB] at this
    · show (1 / 1000000 : ℚ) ≤ |(20 : ℚ)|
      norm_num

/-- Every feature kind returns none when its selected hand is absent: each
getValue implementation starts with the same hand selection and none check. -/
lemma feature_getValue_none_of_absent (g : Geom) (ft : Feature) (l r : Option HandState)
    (habs : selectHand ft.handOf l r = none) :
    (Feature.getValue g ft l r).1 = none := by
  cases ft <;> simp only [Feature.handOf] at habs <;>
    simp [Feature.getValue, PositionFeature.getValue, MovementFeature.getValue,
      CurvatureFeature.getValue, RelativeCurvatureFeature.getValue, BendFeature.getValue,
      RelativeBendFeature.getValue, GestureFeature.getValue, DistanceFeature.getValue,
      RotationFeature.getValue, RollRotationFeature.getValue, habs]

/-- C1: evaluation at the failing input. The feature registered under
left_hand.pos.x carries the selector string left_hand, but every getValue
selects via the comparison with the string left, which the stored selector
never equals, so the feature reads the right snapshot: with the left hand
absent and a right snapshot present it returns a value (computed from the
right hand) instead of none, and its result does not depend on the left
snapshot at all. -/
theorem leftHand_feature_reads_right_hand :
    ("left_hand.pos.x", c1LeftFeature) ∈ (FeatureIndex.init g0 []).features ∧
    c1LeftFeature.handOf = "left_hand" ∧
    ((Feature.getValue g0 c1LeftFeature none (some handA)).1).isSome = true ∧
    (∀ l1 l2 r : Option HandState,
      (Feature.getValue g0 c1LeftFeature l1 r).1 = (Feature.getValue g0 c1LeftFeature l2 r).1) := by
  refine ⟨by decide, rfl, ?_, ?_⟩
  · have hsel2 : selectHand (PositionFeature.new g0 "left_hand" "x" {}).hand
        none (some handA) = some handA := rfl
    have hpc : handA.landmarks.getD HandState.PALM_CENTER defaultLM = palmA := rfl
    have hg : (PositionFeature.new g0 "left_hand" "x" {}).H.g = 0 := rfl
    have hh : (PositionFeature.new g0 "left_hand" "x" {}).H.h = 0 := rfl
    have hi : (PositionFeature.new g0 "left_hand" "x" {}).H.i = 1 := rfl
    simp only [c1LeftFeature, Feature.getValue, PositionFeature.getValue, hsel2, hpc, hg, hh, hi]
    norm_num [palmA]
  · intro l1 l2 r
    rfl

/-- C3 counterexample: a binding whose input feature name is unknown to the
Feature Index does not fail: getFeature returns none and the builder returns
a delta binding holding an unresolved none feature instead of raising a
configuration error. -/
theorem unknown_feature_name_still_builds_binding :
    c3Index.getFeature "no.such.feature" = none ∧
    BindingBuilder.build c3Cfg c3Index = .ok (.delta none none (.mouseMoveDelta "x") 1 0 none) := by
  exact ⟨by decide, rfl⟩

/-- C3 as amended: an actuator-builder failure (unknown actuator key) aborts
the binding build with the same error; an explicitly configured binding type
outside event, delta and abs raises; any failing entry aborts the whole
Binding Index construction; but an unknown feature name does not fail (when
no type is configured the binding is built with feature none, the kind being
inferred from the actuator shape), and a gate referencing an unknown feature
name is built with input_feature none. -/
theorem binding_build_error_conditions :
    (∀ (cfg : BindingCfg) (idx : FeatureIndex) (e : String),
        ActuatorBuilder.buildTop cfg.actuator = .error e →
        BindingBuilder.build cfg idx = .error e) ∧
    (∀ (cfg : BindingCfg) (idx : FeatureIndex) (a : Actuator) (t : String),
        ActuatorBuilder.buildTop cfg.actuator = .ok a →
        cfg.type = some t → t ≠ "event" → t ≠ "delta" → t ≠ "abs" →
        BindingBuilder.build cfg idx = .error ("Unknown binding type: " ++ t)) ∧
    (∀ (cfgs : List BindingCfg) (idx : FeatureIndex) (cfg : BindingCfg) (e : String),
        cfg ∈ cfgs → BindingBuilder.build cfg idx = .error e →
        ∃ msg, BindingIndex.init cfgs idx = .error msg) ∧
    (∀ (cfg : BindingCfg) (idx : FeatureIndex) (a : Actuator) (fn : String),
        ActuatorBuilder.buildTop cfg.actuator = .ok a →
        cfg.type = none → cfg.input = some fn → fn ≠ "" →
        idx.getFeature fn = none →
        ∃ b, BindingBuilder.build cfg idx = .ok b ∧ b.featureOf = none) ∧
    (∀ (idx : FeatureIndex) (gc : GateCfg) (fn : String),
        gc.input = some fn → idx.getFeature fn = none →
        ∃ gt, GateBuilder.build idx (some gc) = some gt ∧ gt.input_feature = none) := by
  refine ⟨?pa, ?pb, ?pc, ?pd, ?pe⟩
  · intro cfg idx e h
    simp [BindingBuilder.build, h]
  · intro cfg idx a t ha ht h1 h2 h3
    simp [BindingBuilder.build, ha, ht, h1, h2, h3]
  · intro cfgs idx cfg e hmem herr
    induction cfgs with
    | nil => cases hmem
    | cons a rest ih =>
      rcases List.mem_cons.mp hmem with heq | htail
      · subst heq
        exact ⟨e, by simp [BindingIndex.init, herr]⟩
      · rcases hbuild : BindingBuilder.build a idx with e2 | b
        · exact ⟨e2, by simp [BindingIndex.init, hbuild]⟩
        · rcases ih htail with ⟨msg, hmsg⟩
          exact ⟨msg, by simp [BindingIndex.init, hbuild, hmsg]⟩
  · intro cfg idx a fn ha ht hin hfn hlook
    by_cases hp : a.isPairA <;> by_cases hev : a.isEventA <;>
      by_cases hd : a.isDeltaA <;> by_cases hab : a.isAbsA <;>
      simp [BindingBuilder.build, ha, ht, hin, hfn, hlook, hp, hev, hd, hab,
        FeatureIndex.getFeatureOpt, Binding.featureOf]
  · intro idx gc fn hin hlook
    exact ⟨_, rfl, by simp [GateBuilder.build, Gate.new, hin, hlook, FeatureIndex.getFeatureOpt]⟩

/-- Witness for C3 amended: an unknown actuator key fails the build, and the
unknown-feature configuration builds a binding with feature none. -/
theorem binding_build_error_conditions_witness :
    BindingBuilder.build { actuator := some (.str "bogus.key") } c3Index =
      .error "Unknown actuator key: bogus.key" ∧
    (∃ b, BindingBuilder.build c3Cfg c3Index = .ok b ∧ b.featureOf = none) := by
  constructor
  · exact binding_build_error_conditions.1 { actuator := some (.str "bogus.key") } c3Index
      "Unknown actuator key: bogus.key" rfl
  · exact binding_build_error_conditions.2.2.2.1 c3Cfg c3Index (.mouseMoveDelta "x")
      "no.such.feature" rfl rfl rfl (by decide) (by decide)

/-- Front pruning of a window whose timestamps are nondecreasing removes
exactly the entries strictly older than the cutoff. -/
lemma dropWhile_eq_filter_of_sorted (c : ℚ) :
    ∀ l : List (ℚ × HandState), l.Pairwise (fun a b => a.1 ≤ b.1) →
      l.dropWhile (fun e => decide (e.1 < c)) = l.filter (fun e => decide (c ≤ e.1)) := by
  intro l
  induction l with
  | nil => intro _; rfl
  | cons a t ih =>
    intro hp
    rcases List.pairwise_cons.mp hp with ⟨ha, ht⟩
    by_cases hac : a.1 < c
    · rw [List.dropWhile_cons, if_pos (by simpa using hac), List.filter_cons,
        if_neg (by simpa using not_le.mpr hac)]
      exact ih ht
    · rw [List.dropWhile_cons, if_neg (by simpa using hac),
        List.filter_cons, if_pos (by simpa using le_of_not_lt hac)]
      have : t.filter (fun e => decide (c ≤ e.1)) = t := by
        apply List.filter_eq_self.mpr
        intro b hb
        simpa using le_trans (le_of_not_lt hac) (ha b hb)
      rw [this]

/-- Additive projections distribute over the landmark fold used by the
smoother. -/
lemma foldl_add_proj (px : MultiLandmark → ℚ) (hadd : ∀ a b, px (a + b) = px a + px b) :
    ∀ (rest : List (ℚ × HandState)) (base : MultiLandmark) (i : ℕ),
      px (rest.foldl (fun acc e => acc + e.2.landmarks.getD i defaultLM) base) =
        px base + (rest.map (fun e => px (e.2.landmarks.getD i defaultLM))).sum := by
  intro rest
  induction rest with
  | nil => intro base i; simp
  | cons e t ih =>
    intro base i
    simp only [List.foldl_cons, List.map_cons, List.sum_cons]
    rw [ih, hadd]
    ring

/-- C9: smooth pushes the timestamped snapshot and then prunes every entry
older than now minus the window length (given nondecreasing timestamps); the
smoothed result is none exactly when the window is empty; and every landmark
of the smoothed snapshot is the recency-weighted average in which the newest
retained entry weighs 3, every other retained entry weighs 1, and the sum is
divided by count + 2 (stated for every additive coordinate projection, in
particular each of the six coordinates). -/
theorem smoother_push_prune_recency_weighted_average (g : Geom) (s : HandSmoother)
    (hand : HandState) (now : ℚ)
    (hsort : (s.window ++ [(now, hand)]).Pairwise (fun a b => a.1 ≤ b.1)) :
    ((s.smooth g hand now).2).window =
      (s.window ++ [(now, hand)]).filter (fun e => decide (now - s.smoothing_time ≤ e.1)) ∧
    ((s.smooth g hand now).1 = none ↔ ((s.smooth g hand now).2).window = []) ∧
    (∀ tn newest rest, ((s.smooth g hand now).2).window.reverse = (tn, newest) :: rest →
      ∀ sm, (s.smooth g hand now).1 = some sm →
        sm.label = newest.label ∧
        sm.landmarks.length = newest.landmarks.length ∧
        (∀ i, i < newest.landmarks.length →
          ∀ px : MultiLandmark → ℚ,
            (∀ a b, px (a + b) = px a + px b) →
            (∀ a q, px (a.smul q) = px a * q) →
            (∀ a q, px (a.sdiv q) = px a / q) →
            px (sm.landmarks.getD i defaultLM) =
              (3 * px (newest.landmarks.getD i defaultLM) +
                (rest.map (fun e => px (e.2.landmarks.getD i defaultLM))).sum) /
              ((((s.smooth g hand now).2).window.length : ℚ) + 2))) := by
  have hwin : ((s.smooth g hand now).2).window =
      (s.window ++ [(now, hand)]).filter (fun e => decide (now - s.smoothing_time ≤ e.1)) := by
    simp only [HandSmoother.smooth, HandSmoother.add, HandSmoother.prune]
    exact dropWhile_eq_filter_of_sorted _ _ hsort
  refine ⟨hwin, ?hnone, ?havg⟩
  · show ((s.smooth g hand now).2).get_smoothed g = none ↔ _
    rw [HandSmoother.get_smoothed]
    rcases hrev : ((s.smooth g hand now).2).window.reverse with _ | ⟨⟨tn, newest⟩, rest⟩
    · simp [List.reverse_eq_nil_iff.mp hrev]
    · have : ((s.smooth g hand now).2).window ≠ [] := by
        intro hnil
        rw [hnil] at hrev
        cases hrev
      simp [this]
  · intro tn newest rest hrev sm hsm
    have hsm2 : ((s.smooth g hand now).2).get_smoothed g = some sm := hsm
    rw [HandSmoother.get_smoothed, hrev] at hsm2
    have hsmeq := (Option.some.injEq _ _).mp hsm2
    subst hsmeq
    refine ⟨rfl, by simp, ?_⟩
    intro i hi px hadd hmul hdiv
    have hgd : (((List.range newest.landmarks.length).map
        (fun j => smoothedLandmark newest rest ((s.smooth g hand now).2).window.length j)).getD
          i defaultLM) = smoothedLandmark newest rest ((s.smooth g hand now).2).window.length i := by
      rw [List.getD_eq_getElem _ _ (by simpa using hi)]
      simp
    show px _ = _
    rw [hgd, smoothedLandmark, hdiv, foldl_add_proj px hadd, hmul]
    ring_nf

/-- Witness for C9: smoothing a first snapshot into an empty window with
window length 1 at time 0 retains exactly that snapshot, and the smoothed
result is none exactly when the window is empty (here it is not). -/
theorem smoother_push_prune_recency_weighted_average_witness :
    (((⟨1, []⟩ : HandSmoother).smooth g0 hW 0).2).window = [(0, hW)] ∧
    ((((⟨1, []⟩ : HandSmoother).smooth g0 hW 0).1 = none) ↔
      (((⟨1, []⟩ : HandSmoother).smooth g0 hW 0).2).window = []) := by
  have h := smoother_push_prune_recency_weighted_average g0 ⟨1, []⟩ hW 0 (by simp)
  refine ⟨?_, h.2.1⟩
  rw [h.1]
  norm_num [List.filter]

/-- The freshly appended entry survives the front prune, so the pruned window
is never empty. -/
lemma dropWhile_append_singleton_ne_nil (p : ℚ × HandState → Bool) (a : ℚ × HandState)
    (hpa : p a = false) : ∀ l : List (ℚ × HandState), (l ++ [a]).dropWhile p ≠ [] := by
  intro l
  induction l with
  | nil => simp [List.dropWhile, hpa]
  | cons b t ih =>
    rw [List.cons_append, List.dropWhile_cons]
    by_cases hb : p b = true
    · rw [if_pos hb]; exact ih
    · rw [if_neg hb]; simp

/-- C10: with a non-negative smoothing time, the public smooth path always
returns a snapshot: pruning removes only entries strictly older than the
cutoff, so the snapshot just added at now survives and the empty-window none
branch of get_smoothed is unreachable through smooth. -/
theorem smooth_after_add_never_none (g : Geom) (s : HandSmoother) (hand : HandState)
    (now : ℚ) (hst : 0 ≤ s.smoothing_time) :
    ((s.smooth g hand now).1).isSome := by
  have hpa : (fun (e : ℚ × HandState) => decide (e.1 < now - s.smoothing_time)) (now, hand)
      = false := by
    simp only [decide_eq_false_iff_not, not_lt]
    linarith
  have hne : ((s.smooth g hand now).2).window ≠ [] := by
    simp only [HandSmoother.smooth, HandSmoother.add, HandSmoother.prune]
    exact dropWhile_append_singleton_ne_nil _ _ hpa s.window
  show (((s.smooth g hand now).2).get_smoothed g).isSome
  rw [HandSmoother.get_smoothed]
  rcases hrev : ((s.smooth g hand now).2).window.reverse with _ | ⟨⟨tn, newest⟩, rest⟩
  · exact absurd (List.reverse_eq_nil_iff.mp hrev) hne
  · simp

/-- Witness for C10: a smoother with smoothing time 0 and empty window still
returns a smoothed snapshot for a snapshot added at time 5. -/
theorem smooth_after_add_never_none_witness :
    ((((⟨0, []⟩ : HandSmoother)).smooth g0 hW 5).1).isSome :=
  smooth_after_add_never_none g0 ⟨0, []⟩ hW 5 (by norm_num)
